import Mathlib

set_option autoImplicit false

/-
Verification of the Cloudsdk reliability core: error taxonomy (go/cloudsdk.go),
retry-with-backoff driver (providers/aws/{compute,database,storage} retryWithBackoff),
capability-checking client (go/cloudsdk.go Client), and the in-memory mock provider
(providers/mock).  Go machine integers fit in Nat here (all quantities are
non-negative durations, counters and sizes); the float64 backoff factor is
modelled as an exact rational, which coincides with float64 arithmetic for the
factor 2.0 and the delay magnitudes exercised by every claim (all values stay
far below 2^53, and multiplication by 2.0 is exact in binary floating point).
-/

namespace Cloudsdk

/-! Association-list operations standing for Go maps.  Go map reads are keyed
lookups; writes replace the entry for an existing key or add a new one. -/

/-- Go map read `m[k]`: first entry with the given key, if any. -/
def lookupA {κ α : Type} [DecidableEq κ] (l : List (κ × α)) (k : κ) : Option α :=
  match l with
  | [] => none
  | (k', v) :: rest => if k' = k then some v else lookupA rest k

/-- Go map write `m[k] = v`: replace the entry for `k`, or append it. -/
def insertA {κ α : Type} [DecidableEq κ] (l : List (κ × α)) (k : κ) (v : α) :
    List (κ × α) :=
  match l with
  | [] => [(k, v)]
  | (k', v') :: rest => if k' = k then (k, v) :: rest else (k', v') :: insertA rest k v

/-- Go map delete `delete(m, k)`. -/
def eraseA {κ α : Type} [DecidableEq κ] (l : List (κ × α)) (k : κ) : List (κ × α) :=
  match l with
  | [] => []
  | (k', v') :: rest => if k' = k then rest else (k', v') :: eraseA rest k

/-- An ASCII single-quote character, used to spell Go error messages. -/
def squote : String := String.singleton (Char.ofNat 39)

/-! Error taxonomy, embedded from go/cloudsdk.go. -/

/-- ErrorCode constants of go/cloudsdk.go (the closed ErrorKind enumeration). -/
inductive ErrorCode where
  | errAuthentication
  | errAuthorization
  | errServiceNotSupported
  | errOperationNotSupported
  | errResourceNotFound
  | errResourceConflict
  | errRateLimit
  | errNetworkTimeout
  | errInvalidConfig
  | errProviderError
deriving DecidableEq, Repr

/-- ErrorContext of go/cloudsdk.go.  The Go `time.Time` timestamp is modelled as
a Nat supplied by the caller (the value of `time.Now()` at construction). -/
structure ErrorContext where
  requestID : String
  timestamp : Nat
  metadata : List (String × String)
  retryable : Bool
deriving DecidableEq, Repr

/-- CloudError of go/cloudsdk.go.  The wrapped `Cause error` is modelled opaquely
by an optional string naming the underlying error. -/
structure CloudError where
  code : ErrorCode
  message : String
  provider : String
  service : String
  operation : String
  suggestions : List String
  cause : Option String
  context : ErrorContext
deriving DecidableEq, Repr

/-- isRetryableError of go/cloudsdk.go: true exactly for ErrRateLimit and
ErrNetworkTimeout. -/
def isRetryableError (code : ErrorCode) : Bool :=
  match code with
  | ErrorCode.errRateLimit => true
  | ErrorCode.errNetworkTimeout => true
  | _ => false

/-- NewCloudError of go/cloudsdk.go.  `now` stands for `time.Now()`. -/
def NewCloudError (code : ErrorCode) (message provider service operation : String)
    (now : Nat) : CloudError :=
  { code := code
    message := message
    provider := provider
    service := service
    operation := operation
    suggestions := []
    cause := none
    context := { requestID := "", timestamp := now, metadata := [],
                 retryable := isRetryableError code } }

/-- The value held by the CloudError cell after `WithSuggestions(suggestions...)`:
the receiver's Suggestions slice is extended by appending. -/
def withSuggestionsVal (e : CloudError) (ss : List String) : CloudError :=
  { e with suggestions := e.suggestions ++ ss }

/-- The value held by the CloudError cell after `WithCause(cause)`. -/
def withCauseVal (e : CloudError) (c : String) : CloudError :=
  { e with cause := some c }

/-- The value held by the CloudError cell after `WithContext(requestID, metadata)`:
RequestID is overwritten and each metadata pair is written into the Metadata map. -/
def withContextVal (e : CloudError) (requestID : String)
    (metadata : List (String × String)) : CloudError :=
  { e with context :=
      { e.context with
          requestID := requestID
          metadata := metadata.foldl (fun m kv => insertA m kv.1 kv.2) e.context.metadata } }

/-- NewResourceNotFoundError of go/cloudsdk.go. -/
def NewResourceNotFoundError (provider service resourceType resourceID : String)
    (now : Nat) : CloudError :=
  withSuggestionsVal
    (NewCloudError ErrorCode.errResourceNotFound
      (resourceType ++ " " ++ squote ++ resourceID ++ squote ++ " not found")
      provider service "get" now)
    [ "Verify the resource ID is correct",
      "Check that the resource exists in the specified region",
      "Ensure you have permission to access this resource" ]

/-- NewInvalidConfigError of go/cloudsdk.go. -/
def NewInvalidConfigError (provider service field reason : String) (now : Nat) : CloudError :=
  withSuggestionsVal
    (NewCloudError ErrorCode.errInvalidConfig
      ("Invalid configuration for field " ++ squote ++ field ++ squote ++ ": " ++ reason)
      provider service "validate" now)
    [ "Check the field value meets the required format",
      "Refer to the provider documentation for valid values",
      "Ensure all required fields are provided" ]

/-! Pointer-level view of the enrichment methods.  In Go, `WithSuggestions`,
`WithCause` and `WithContext` are pointer-receiver methods: they assign into the
cell the receiver points to and return the receiver pointer itself.  We model
the heap of CloudError cells as a total map from addresses to values. -/

/-- A heap of CloudError cells, addressed by Nat. -/
def ErrHeap : Type := Nat → CloudError

/-- Write one cell of the heap. -/
def heapWrite (h : ErrHeap) (p : Nat) (e : CloudError) : ErrHeap :=
  fun q => if q = p then e else h q

/-- Go call `e.WithSuggestions(ss...)` on the pointer `p`: mutates the cell in
place and returns the same pointer. -/
def withSuggestionsGo (h : ErrHeap) (p : Nat) (ss : List String) : ErrHeap × Nat :=
  (heapWrite h p (withSuggestionsVal (h p) ss), p)

/-- Go call `e.WithCause(c)` on the pointer `p`. -/
def withCauseGo (h : ErrHeap) (p : Nat) (c : String) : ErrHeap × Nat :=
  (heapWrite h p (withCauseVal (h p) c), p)

/-- Go call `e.WithContext(requestID, metadata)` on the pointer `p`. -/
def withContextGo (h : ErrHeap) (p : Nat) (requestID : String)
    (metadata : List (String × String)) : ErrHeap × Nat :=
  (heapWrite h p (withContextVal (h p) requestID metadata), p)

/-- One enrichment step, for reasoning about arbitrary builder chains. -/
inductive EnrichStep where
  | sugg (ss : List String)
  | cause (c : String)
  | ctx (requestID : String) (metadata : List (String × String))
deriving DecidableEq, Repr

/-- Apply one enrichment step to the value held in the error cell. -/
def applyEnrich (e : CloudError) : EnrichStep → CloudError
  | EnrichStep.sugg ss => withSuggestionsVal e ss
  | EnrichStep.cause c => withCauseVal e c
  | EnrichStep.ctx rid md => withContextVal e rid md

/-- Apply a chain of enrichment steps in order. -/
def applyEnrichChain (e : CloudError) (steps : List EnrichStep) : CloudError :=
  steps.foldl applyEnrich e

/-! Retry driver, embedded from retryWithBackoff in
providers/aws/database/database.go (identical copies live in the aws compute
and storage bindings).  Durations are nanosecond counts.  The float64
BackoffFactor is modelled as the exact rational factorNum/factorDen; for the
factor 2.0 and the nanosecond magnitudes of every claim the float64 product
`float64(delay) * factor` is exact, so `time.Duration(...)` (truncation toward
zero) coincides with Nat multiplication and division below. -/

/-- RetryConfig of the aws provider bindings. -/
structure RetryConfig where
  maxAttempts : Nat
  initialDelay : Nat
  maxDelay : Nat
  factorNum : Nat
  factorDen : Nat
deriving DecidableEq, Repr

/-- DefaultRetryConfig: 3 attempts, 100ms initial, 5s cap, factor 2.0. -/
def DefaultRetryConfig : RetryConfig :=
  { maxAttempts := 3
    initialDelay := 100000000
    maxDelay := 5000000000
    factorNum := 2
    factorDen := 1 }

/-- The delay update `delay = time.Duration(float64(delay) * config.BackoffFactor);
if delay > config.MaxDelay { delay = config.MaxDelay }`. -/
def nextDelay (config : RetryConfig) (delay : Nat) : Nat :=
  let d : Nat := delay * config.factorNum / config.factorDen
  if config.maxDelay < d then config.maxDelay else d

/-- The Go `error` result of retryWithBackoff: nil, the context's error
(`ctx.Err()` from the Done branch of the select), or the last operation error. -/
inductive RetryOutcome (ε : Type) where
  | success
  | ctxCancelled
  | failed (e : ε)
deriving DecidableEq, Repr

/-- Observable trace of one retryWithBackoff run: its result, the sequence of
completed backoff sleeps (nanoseconds, in order), and how many times the
operation closure was invoked. -/
structure RetryTrace (ε : Type) where
  outcome : RetryOutcome ε
  sleeps : List Nat
  calls : Nat
deriving DecidableEq, Repr

/-- The retry loop `for attempt := 1; attempt <= config.MaxAttempts; attempt++`.
`fuel` counts the remaining iterations (maxAttempts - attempt + 1 at entry);
`ctxDone attempt` tells whether the cancellation context is done at the select
performed before sleeping for that attempt; `operation attempt` is the error
result of the attempt-th invocation (`none` = nil); `retryable` is the
isRetryable*Error classifier the binding consults. -/
def retryLoop {ε : Type} (config : RetryConfig) (retryable : ε → Bool)
    (ctxDone : Nat → Bool) (operation : Nat → Option ε) :
    Nat → Nat → Nat → Option ε → RetryTrace ε
  | 0, _attempt, _delay, lastErr =>
    { outcome := match lastErr with
        | none => RetryOutcome.success
        | some e => RetryOutcome.failed e
      sleeps := []
      calls := 0 }
  | fuel + 1, attempt, delay, lastErr =>
    if 1 < attempt ∧ ctxDone attempt then
      { outcome := RetryOutcome.ctxCancelled, sleeps := [], calls := 0 }
    else
      let slept : List Nat := if 1 < attempt then [delay] else []
      match operation attempt with
      | none => { outcome := RetryOutcome.success, sleeps := slept, calls := 1 }
      | some e =>
        if retryable e = false then
          { outcome := RetryOutcome.failed e, sleeps := slept, calls := 1 }
        else
          let delay' := if attempt < config.maxAttempts then nextDelay config delay else delay
          let rest := retryLoop config retryable ctxDone operation fuel (attempt + 1) delay'
            (some e)
          { outcome := rest.outcome
            sleeps := slept ++ rest.sleeps
            calls := rest.calls + 1 }

/-- retryWithBackoff of the aws provider bindings: run the loop from attempt 1
with `delay := config.InitialDelay` and `lastErr` nil. -/
def retryWithBackoff {ε : Type} (config : RetryConfig) (retryable : ε → Bool)
    (ctxDone : Nat → Bool) (operation : Nat → Option ε) : RetryTrace ε :=
  retryLoop config retryable ctxDone operation config.maxAttempts 1 config.initialDelay none

/-- The retry policy of claim C1: initial 100ms, cap 5s, factor 2.0,
with a given number of attempts. -/
def c1config (n : Nat) : RetryConfig :=
  { maxAttempts := n
    initialDelay := 100000000
    maxDelay := 5000000000
    factorNum := 2
    factorDen := 1 }

/-- The capped geometric delay value min(100ms * 2^j, 5s). -/
def c1delay (j : Nat) : Nat := min (100000000 * 2 ^ j) 5000000000

/-- A context that is never done. -/
def ctxNever : Nat → Bool := fun _ => false

/-- An operation failing on every invocation (errors indexed by attempt). -/
def opAlwaysFail : Nat → Option Nat := fun attempt => some attempt

/-- A classifier that deems every error retryable. -/
def retryAll : Nat → Bool := fun _ => true

/-! Capability-checking client, embedded from go/cloudsdk.go (ServiceType,
ServiceNotSupportedError, Client.Compute/Storage/Database, supportsService). -/

/-- ServiceType constants of go/cloudsdk.go. -/
inductive ServiceType where
  | serviceCompute
  | serviceStorage
  | serviceDatabase
deriving DecidableEq, Repr

/-- ServiceNotSupportedError of go/cloudsdk.go: the value the client panics
with when the provider does not declare the requested service. -/
structure ServiceNotSupportedError where
  provider : String
  service : ServiceType
deriving DecidableEq, Repr

/-- A Provider as seen by the Client: its Name, Region, SupportedServices,
and the three service handles its accessors return (handle type abstract). -/
structure ProviderImpl (σ : Type) where
  name : String
  region : String
  supportedServices : List ServiceType
  computeSvc : σ
  storageSvc : σ
  databaseSvc : σ
deriving DecidableEq, Repr

/-- Client of go/cloudsdk.go: wraps a provider. -/
structure Client (σ : Type) where
  provider : ProviderImpl σ
deriving DecidableEq, Repr

/-- supportsService of go/cloudsdk.go: linear scan of the slice returned by
`c.provider.SupportedServices()` for an entry equal to the requested service.
It re-reads the capability slice on every invocation; nothing is cached. -/
def supportsService {σ : Type} (c : Client σ) (service : ServiceType) : Bool :=
  c.provider.supportedServices.any (fun s => s == service)

/-- Client.Compute: panic with a ServiceNotSupportedError unless the provider
declares compute, else delegate to `c.provider.Compute()`.  The Go panic is
modelled as the error branch of an Except value. -/
def clientCompute {σ : Type} (c : Client σ) : Except ServiceNotSupportedError σ :=
  if supportsService c ServiceType.serviceCompute = false then
    Except.error { provider := c.provider.name, service := ServiceType.serviceCompute }
  else
    Except.ok c.provider.computeSvc

/-- Client.Storage, as clientCompute. -/
def clientStorage {σ : Type} (c : Client σ) : Except ServiceNotSupportedError σ :=
  if supportsService c ServiceType.serviceStorage = false then
    Except.error { provider := c.provider.name, service := ServiceType.serviceStorage }
  else
    Except.ok c.provider.storageSvc

/-- Client.Database, as clientCompute. -/
def clientDatabase {σ : Type} (c : Client σ) : Except ServiceNotSupportedError σ :=
  if supportsService c ServiceType.serviceDatabase = false then
    Except.error { provider := c.provider.name, service := ServiceType.serviceDatabase }
  else
    Except.ok c.provider.databaseSvc

/-- The accessor for a given service type. -/
def clientService {σ : Type} (c : Client σ) : ServiceType → Except ServiceNotSupportedError σ
  | ServiceType.serviceCompute => clientCompute c
  | ServiceType.serviceStorage => clientStorage c
  | ServiceType.serviceDatabase => clientDatabase c

/-- The handle the provider itself would return for a service type. -/
def providerService {σ : Type} (p : ProviderImpl σ) : ServiceType → σ
  | ServiceType.serviceCompute => p.computeSvc
  | ServiceType.serviceStorage => p.storageSvc
  | ServiceType.serviceDatabase => p.databaseSvc

/-- WithSupportedServices of the mock provider builder (providers/mock/mock.go):
replaces the capability slice of the provider in place. -/
def withSupportedServices {σ : Type} (p : ProviderImpl σ) (services : List ServiceType) :
    ProviderImpl σ :=
  { p with supportedServices := services }

/-! Service data shapes, embedded from go/services.  Only the fields the mock
provider operations read or write are modelled; the remaining request fields
are validation-only options never touched by providers/mock. -/

/-- services.VMConfig (creation request). -/
structure VMConfig where
  name : String
  imageID : String
  instanceType : String
deriving DecidableEq, Repr

/-- services.VM. -/
structure VM where
  id : String
  name : String
  state : String
  publicIP : String
  privateIP : String
  launchTime : String
deriving DecidableEq, Repr

/-- services.BucketConfig (creation request). -/
structure BucketConfig where
  name : String
  region : String
  tags : List (String × String)
deriving DecidableEq, Repr

/-- services.Object (a listing entry).  Size is the int64 byte count. -/
structure Object where
  key : String
  size : Nat
  lastModified : String
  etag : String
deriving DecidableEq, Repr

/-- services.DBConfig (creation request). -/
structure DBConfig where
  name : String
  engine : String
deriving DecidableEq, Repr

/-- services.DBInstance. -/
structure DBInstance where
  id : String
  name : String
  engine : String
  status : String
  endpoint : String
  launchTime : String
deriving DecidableEq, Repr

/-- An io.Reader argument: its payload, and whether io.ReadAll on it fails. -/
structure ReaderVal where
  bytes : List UInt8
  readFails : Bool
deriving DecidableEq, Repr

/-- An error returned by a mock operation: either a structured CloudError or a
plain Go error (such as an io.ReadAll failure), modelled by its message. -/
inductive MockErr where
  | cloudE (e : CloudError)
  | goErr (msg : String)
deriving DecidableEq, Repr

/-- An opaque Go interface value as recorded by the OperationRecorder. -/
inductive GoVal where
  | vmV (v : VM)
  | vmListV (l : List VM)
  | dbV (d : DBInstance)
  | dbListV (l : List DBInstance)
  | vmConfigV (c : VMConfig)
  | dbConfigV (c : DBConfig)
  | bucketConfigV (c : BucketConfig)
  | strV (s : String)
  | strListV (l : List String)
  | objListV (l : List Object)
  | readerV (r : ReaderVal)
deriving DecidableEq, Repr

/-- Operation of providers/mock/mock.go (one recorder entry). -/
structure Operation where
  method : String
  args : List GoVal
  result : Option GoVal
  error : Option MockErr
  timestamp : Nat
deriving DecidableEq, Repr

/-- BucketState of providers/mock/mock.go.  Objects is the key-to-bytes map. -/
structure BucketState where
  name : String
  region : String
  objects : List (String × List UInt8)
  tags : List (String × String)
deriving DecidableEq, Repr

/-- MockProvider of providers/mock/mock.go, as the value content of its maps.
Go stores *services.VM and *services.DBInstance pointers in the state maps;
this value view records the pointed-to contents, which is what every simulator
operation reads and writes (the aliasing of those pointers is modelled
separately by MockComputeHeap below). -/
structure MockState where
  region : String
  supportedServices : List ServiceType
  vmResponses : List (String × VM)
  bucketResponses : List (String × Bool)
  dbResponses : List (String × DBInstance)
  objectResponses : List (String × List (String × List UInt8))
  errors : List (String × MockErr)
  delays : List (String × Nat)
  operations : List Operation
  callCounts : List (String × Nat)
  lastCallArgs : List (String × List GoVal)
  vmState : List (String × VM)
  bucketState : List (String × BucketState)
  dbState : List (String × DBInstance)
deriving DecidableEq, Repr

/-- New of providers/mock/mock.go: fresh provider supporting all services. -/
def mockNew (region : String) : MockState :=
  { region := region
    supportedServices := [ServiceType.serviceCompute, ServiceType.serviceStorage,
                          ServiceType.serviceDatabase]
    vmResponses := []
    bucketResponses := []
    dbResponses := []
    objectResponses := []
    errors := []
    delays := []
    operations := []
    callCounts := []
    lastCallArgs := []
    vmState := []
    bucketState := []
    dbState := [] }

/-- The environment a simulated call runs in: the value of time.Now(), as a
UnixNano count and as its RFC3339 rendering (used only as an opaque string). -/
structure MockEnv where
  now : Nat
  nowFormatted : String
deriving DecidableEq, Repr

/-- recordOperation of providers/mock/mock.go: append an Operation entry, bump
the per-method call counter, remember the last arguments. -/
def recordOperation (s : MockState) (env : MockEnv) (method : String) (args : List GoVal)
    (result : Option GoVal) (err : Option MockErr) : MockState :=
  { s with
      operations := s.operations ++
        [{ method := method, args := args, result := result, error := err,
           timestamp := env.now }]
      callCounts := insertA s.callCounts method ((lookupA s.callCounts method).getD 0 + 1)
      lastCallArgs := insertA s.lastCallArgs method args }

/-- checkError of providers/mock/mock.go: the injected error for a method. -/
def checkError (s : MockState) (operation : String) : Option MockErr :=
  lookupA s.errors operation

/-- fmt.Sprintf("%016x", n): lowercase hex, zero-padded to 16 digits. -/
def hexPad16 (n : Nat) : String :=
  let ds := Nat.toDigits 16 n
  String.mk (List.replicate (16 - ds.length) '0' ++ ds)

/-- generateVMID of providers/mock/mock.go, applied to the current UnixNano. -/
def generateVMID (now : Nat) : String := "i-" ++ hexPad16 now

/-- generateDBInstanceID of providers/mock/mock.go: the configured name. -/
def generateDBInstanceID (name : String) : String := name

/-- generateEndpoint of providers/mock/mock.go. -/
def generateEndpoint (name region : String) : String :=
  name ++ ".cluster-xyz." ++ region ++ ".rds.amazonaws.com"

/-- getDefaultEngineVersion of providers/mock/database.go. -/
def getDefaultEngineVersion (engine : String) : String :=
  if engine = "postgres" then "14.9"
  else if engine = "mysql" then "8.0.35"
  else if engine = "mariadb" then "10.6.15"
  else if engine = "oracle-ee" ∨ engine = "oracle-se2" then
    "19.0.0.0.ru-2023-10.rur-2023-10.r1"
  else if engine = "sqlserver-ex" ∨ engine = "sqlserver-web" ∨ engine = "sqlserver-se" ∨
      engine = "sqlserver-ee" then "15.00.4335.1.v1"
  else "1.0.0"

/-- getDefaultPort of providers/mock/database.go. -/
def getDefaultPort (engine : String) : Nat :=
  if engine = "postgres" then 5432
  else if engine = "mysql" ∨ engine = "mariadb" then 3306
  else if engine = "oracle-ee" ∨ engine = "oracle-se2" then 1521
  else if engine = "sqlserver-ex" ∨ engine = "sqlserver-web" ∨ engine = "sqlserver-se" ∨
      engine = "sqlserver-ee" then 1433
  else 3306

/-! MockCompute operations (providers/mock/compute.go).  Every entry point
first applies any configured delay — a pure sleep with no state effect, so it
does not appear in the state transition — then consults checkError, then runs
the lifecycle logic, then records the operation. -/

/-- MockCompute.CreateVM. -/
def createVM (s : MockState) (env : MockEnv) (config : VMConfig) :
    Except MockErr VM × MockState :=
  match checkError s "CreateVM" with
  | some err => (Except.error err,
      recordOperation s env "CreateVM" [GoVal.vmConfigV config] none (some err))
  | none =>
    match lookupA s.vmResponses config.name with
    | some vm =>
      let s := { s with vmState := insertA s.vmState vm.id vm }
      (Except.ok vm,
        recordOperation s env "CreateVM" [GoVal.vmConfigV config] (some (GoVal.vmV vm)) none)
    | none =>
      let vm : VM :=
        { id := generateVMID env.now
          name := config.name
          state := "running"
          publicIP := "203.0.113." ++ toString (env.now % 254 + 1)
          privateIP := "10.0.1." ++ toString (env.now % 254 + 1)
          launchTime := env.nowFormatted }
      let s := { s with vmState := insertA s.vmState vm.id vm }
      (Except.ok vm,
        recordOperation s env "CreateVM" [GoVal.vmConfigV config] (some (GoVal.vmV vm)) none)

/-- MockCompute.GetVM. -/
def getVM (s : MockState) (env : MockEnv) (id : String) : Except MockErr VM × MockState :=
  match checkError s "GetVM" with
  | some err => (Except.error err,
      recordOperation s env "GetVM" [GoVal.strV id] none (some err))
  | none =>
    match lookupA s.vmState id with
    | some vm => (Except.ok vm,
        recordOperation s env "GetVM" [GoVal.strV id] (some (GoVal.vmV vm)) none)
    | none =>
      let err := MockErr.cloudE (NewResourceNotFoundError "mock" "compute" "VM" id env.now)
      (Except.error err, recordOperation s env "GetVM" [GoVal.strV id] none (some err))

/-- MockCompute.ListVMs (the state map is collected in entry order). -/
def listVMs (s : MockState) (env : MockEnv) : Except MockErr (List VM) × MockState :=
  match checkError s "ListVMs" with
  | some err => (Except.error err, recordOperation s env "ListVMs" [] none (some err))
  | none =>
    let vms := s.vmState.map (fun p => p.2)
    (Except.ok vms, recordOperation s env "ListVMs" [] (some (GoVal.vmListV vms)) none)

/-- MockCompute.DeleteVM. -/
def deleteVM (s : MockState) (env : MockEnv) (id : String) : Except MockErr Unit × MockState :=
  match checkError s "DeleteVM" with
  | some err => (Except.error err,
      recordOperation s env "DeleteVM" [GoVal.strV id] none (some err))
  | none =>
    match lookupA s.vmState id with
    | none =>
      let err := MockErr.cloudE (NewResourceNotFoundError "mock" "compute" "VM" id env.now)
      (Except.error err, recordOperation s env "DeleteVM" [GoVal.strV id] none (some err))
    | some _ =>
      let s := { s with vmState := eraseA s.vmState id }
      (Except.ok (), recordOperation s env "DeleteVM" [GoVal.strV id] none none)

/-- MockCompute.StartVM.  The in-place `vm.State = "running"` on the stored
record shows up in the value view as rewriting the entry for its id. -/
def startVM (s : MockState) (env : MockEnv) (id : String) : Except MockErr Unit × MockState :=
  match checkError s "StartVM" with
  | some err => (Except.error err,
      recordOperation s env "StartVM" [GoVal.strV id] none (some err))
  | none =>
    match lookupA s.vmState id with
    | none =>
      let err := MockErr.cloudE (NewResourceNotFoundError "mock" "compute" "VM" id env.now)
      (Except.error err, recordOperation s env "StartVM" [GoVal.strV id] none (some err))
    | some vm =>
      if vm.state = "running" then
        let err := MockErr.cloudE
          (NewInvalidConfigError "mock" "compute" "state" "VM is already running" env.now)
        (Except.error err, recordOperation s env "StartVM" [GoVal.strV id] none (some err))
      else
        let s := { s with vmState := insertA s.vmState id { vm with state := "running" } }
        (Except.ok (), recordOperation s env "StartVM" [GoVal.strV id] none none)

/-- MockCompute.StopVM. -/
def stopVM (s : MockState) (env : MockEnv) (id : String) : Except MockErr Unit × MockState :=
  match checkError s "StopVM" with
  | some err => (Except.error err,
      recordOperation s env "StopVM" [GoVal.strV id] none (some err))
  | none =>
    match lookupA s.vmState id with
    | none =>
      let err := MockErr.cloudE (NewResourceNotFoundError "mock" "compute" "VM" id env.now)
      (Except.error err, recordOperation s env "StopVM" [GoVal.strV id] none (some err))
    | some vm =>
      if vm.state = "stopped" then
        let err := MockErr.cloudE
          (NewInvalidConfigError "mock" "compute" "state" "VM is already stopped" env.now)
        (Except.error err, recordOperation s env "StopVM" [GoVal.strV id] none (some err))
      else
        let s := { s with vmState := insertA s.vmState id { vm with state := "stopped" } }
        (Except.ok (), recordOperation s env "StopVM" [GoVal.strV id] none none)

/-! MockStorage operations (providers/mock/storage.go). -/

/-- MockStorage.CreateBucket. -/
def createBucket (s : MockState) (env : MockEnv) (config : BucketConfig) :
    Except MockErr Unit × MockState :=
  match checkError s "CreateBucket" with
  | some err => (Except.error err,
      recordOperation s env "CreateBucket" [GoVal.bucketConfigV config] none (some err))
  | none =>
    match lookupA s.bucketState config.name with
    | some _ =>
      let err := MockErr.cloudE (withSuggestionsVal
        (NewCloudError ErrorCode.errResourceConflict "Bucket already exists"
          "mock" "storage" "CreateBucket" env.now)
        ["Choose a different bucket name", "Delete the existing bucket first"])
      (Except.error err,
        recordOperation s env "CreateBucket" [GoVal.bucketConfigV config] none (some err))
    | none =>
      let b : BucketState :=
        { name := config.name, region := config.region, objects := [], tags := config.tags }
      let s := { s with bucketState := insertA s.bucketState config.name b }
      (Except.ok (),
        recordOperation s env "CreateBucket" [GoVal.bucketConfigV config] none none)

/-- MockStorage.ListBuckets. -/
def listBuckets (s : MockState) (env : MockEnv) : Except MockErr (List String) × MockState :=
  match checkError s "ListBuckets" with
  | some err => (Except.error err, recordOperation s env "ListBuckets" [] none (some err))
  | none =>
    let buckets := s.bucketState.map (fun p => p.1)
    (Except.ok buckets,
      recordOperation s env "ListBuckets" [] (some (GoVal.strListV buckets)) none)

/-- MockStorage.DeleteBucket: refuses with ResourceConflict while the bucket
still holds objects. -/
def deleteBucket (s : MockState) (env : MockEnv) (name : String) :
    Except MockErr Unit × MockState :=
  match checkError s "DeleteBucket" with
  | some err => (Except.error err,
      recordOperation s env "DeleteBucket" [GoVal.strV name] none (some err))
  | none =>
    match lookupA s.bucketState name with
    | none =>
      let err := MockErr.cloudE
        (NewResourceNotFoundError "mock" "storage" "bucket" name env.now)
      (Except.error err,
        recordOperation s env "DeleteBucket" [GoVal.strV name] none (some err))
    | some bucket =>
      if 0 < bucket.objects.length then
        let err := MockErr.cloudE (withSuggestionsVal
          (NewCloudError ErrorCode.errResourceConflict "Bucket is not empty"
            "mock" "storage" "DeleteBucket" env.now)
          ["Delete all objects in the bucket first", "Use force delete if supported"])
        (Except.error err,
          recordOperation s env "DeleteBucket" [GoVal.strV name] none (some err))
      else
        let s := { s with bucketState := eraseA s.bucketState name }
        (Except.ok (), recordOperation s env "DeleteBucket" [GoVal.strV name] none none)

/-- MockStorage.PutObject: io.ReadAll the body, then store it under the key. -/
def putObject (s : MockState) (env : MockEnv) (bucket key : String) (data : ReaderVal) :
    Except MockErr Unit × MockState :=
  match checkError s "PutObject" with
  | some err => (Except.error err,
      recordOperation s env "PutObject"
        [GoVal.strV bucket, GoVal.strV key, GoVal.readerV data] none (some err))
  | none =>
    match lookupA s.bucketState bucket with
    | none =>
      let err := MockErr.cloudE
        (NewResourceNotFoundError "mock" "storage" "bucket" bucket env.now)
      (Except.error err,
        recordOperation s env "PutObject"
          [GoVal.strV bucket, GoVal.strV key, GoVal.readerV data] none (some err))
    | some bucketSt =>
      if data.readFails then
        let err := MockErr.goErr "io.ReadAll failed"
        (Except.error err,
          recordOperation s env "PutObject"
            [GoVal.strV bucket, GoVal.strV key, GoVal.readerV data] none (some err))
      else
        let b := { bucketSt with objects := insertA bucketSt.objects key data.bytes }
        let s := { s with bucketState := insertA s.bucketState bucket b }
        (Except.ok (),
          recordOperation s env "PutObject"
            [GoVal.strV bucket, GoVal.strV key, GoVal.readerV data] none none)

/-- MockStorage.GetObject: a reader over a copy of the stored bytes. -/
def getObject (s : MockState) (env : MockEnv) (bucket key : String) :
    Except MockErr (List UInt8) × MockState :=
  match checkError s "GetObject" with
  | some err => (Except.error err,
      recordOperation s env "GetObject" [GoVal.strV bucket, GoVal.strV key] none (some err))
  | none =>
    match lookupA s.bucketState bucket with
    | none =>
      let err := MockErr.cloudE
        (NewResourceNotFoundError "mock" "storage" "bucket" bucket env.now)
      (Except.error err,
        recordOperation s env "GetObject" [GoVal.strV bucket, GoVal.strV key] none (some err))
    | some bucketSt =>
      match lookupA bucketSt.objects key with
      | none =>
        let err := MockErr.cloudE
          (NewResourceNotFoundError "mock" "storage" "object" key env.now)
        (Except.error err,
          recordOperation s env "GetObject" [GoVal.strV bucket, GoVal.strV key] none (some err))
      | some data =>
        (Except.ok data,
          recordOperation s env "GetObject" [GoVal.strV bucket, GoVal.strV key]
            (some (GoVal.readerV { bytes := data, readFails := false })) none)

/-- MockStorage.DeleteObject. -/
def deleteObject (s : MockState) (env : MockEnv) (bucket key : String) :
    Except MockErr Unit × MockState :=
  match checkError s "DeleteObject" with
  | some err => (Except.error err,
      recordOperation s env "DeleteObject" [GoVal.strV bucket, GoVal.strV key] none (some err))
  | none =>
    match lookupA s.bucketState bucket with
    | none =>
      let err := MockErr.cloudE
        (NewResourceNotFoundError "mock" "storage" "bucket" bucket env.now)
      (Except.error err,
        recordOperation s env "DeleteObject" [GoVal.strV bucket, GoVal.strV key] none (some err))
    | some bucketSt =>
      match lookupA bucketSt.objects key with
      | none =>
        let err := MockErr.cloudE
          (NewResourceNotFoundError "mock" "storage" "object" key env.now)
        (Except.error err,
          recordOperation s env "DeleteObject" [GoVal.strV bucket, GoVal.strV key] none
            (some err))
      | some _ =>
        let b := { bucketSt with objects := eraseA bucketSt.objects key }
        let s := { s with bucketState := insertA s.bucketState bucket b }
        (Except.ok (),
          recordOperation s env "DeleteObject" [GoVal.strV bucket, GoVal.strV key] none none)

/-- MockStorage.ListObjects. -/
def listObjects (s : MockState) (env : MockEnv) (bucket : String) :
    Except MockErr (List Object) × MockState :=
  match checkError s "ListObjects" with
  | some err => (Except.error err,
      recordOperation s env "ListObjects" [GoVal.strV bucket] none (some err))
  | none =>
    match lookupA s.bucketState bucket with
    | none =>
      let err := MockErr.cloudE
        (NewResourceNotFoundError "mock" "storage" "bucket" bucket env.now)
      (Except.error err,
        recordOperation s env "ListObjects" [GoVal.strV bucket] none (some err))
    | some bucketSt =>
      let objects := bucketSt.objects.map (fun p =>
        { key := p.1, size := p.2.length, lastModified := "2024-01-01T00:00:00Z",
          etag := String.singleton (Char.ofNat 34) ++ "d41d8cd98f00b204e9800998ecf8427e" ++
            String.singleton (Char.ofNat 34) : Object })
      (Except.ok objects,
        recordOperation s env "ListObjects" [GoVal.strV bucket]
          (some (GoVal.objListV objects)) none)

/-! MockDatabase operations (providers/mock/database.go). -/

/-- MockDatabase.CreateDB: a configured response short-circuits; otherwise a
duplicate configured name is a ResourceConflict; otherwise a realistic
instance is generated and stored. -/
def createDB (s : MockState) (env : MockEnv) (config : DBConfig) :
    Except MockErr DBInstance × MockState :=
  match checkError s "CreateDB" with
  | some err => (Except.error err,
      recordOperation s env "CreateDB" [GoVal.dbConfigV config] none (some err))
  | none =>
    match lookupA s.dbResponses config.name with
    | some db =>
      let s := { s with dbState := insertA s.dbState db.id db }
      (Except.ok db,
        recordOperation s env "CreateDB" [GoVal.dbConfigV config] (some (GoVal.dbV db)) none)
    | none =>
      if s.dbState.any (fun p => p.2.name = config.name) then
        let err := MockErr.cloudE (withSuggestionsVal
          (NewCloudError ErrorCode.errResourceConflict "Database instance already exists"
            "mock" "database" "CreateDB" env.now)
          ["Choose a different database name", "Delete the existing database first"])
        (Except.error err,
          recordOperation s env "CreateDB" [GoVal.dbConfigV config] none (some err))
      else
        let db : DBInstance :=
          { id := generateDBInstanceID config.name
            name := config.name
            engine := config.engine ++ "-" ++ getDefaultEngineVersion config.engine
            status := "available"
            endpoint := generateEndpoint config.name s.region ++ ":" ++
              toString (getDefaultPort config.engine)
            launchTime := env.nowFormatted }
        let s := { s with dbState := insertA s.dbState db.id db }
        (Except.ok db,
          recordOperation s env "CreateDB" [GoVal.dbConfigV config] (some (GoVal.dbV db)) none)

/-- MockDatabase.GetDB. -/
def getDB (s : MockState) (env : MockEnv) (id : String) :
    Except MockErr DBInstance × MockState :=
  match checkError s "GetDB" with
  | some err => (Except.error err,
      recordOperation s env "GetDB" [GoVal.strV id] none (some err))
  | none =>
    match lookupA s.dbState id with
    | some db => (Except.ok db,
        recordOperation s env "GetDB" [GoVal.strV id] (some (GoVal.dbV db)) none)
    | none =>
      let err := MockErr.cloudE
        (NewResourceNotFoundError "mock" "database" "database instance" id env.now)
      (Except.error err, recordOperation s env "GetDB" [GoVal.strV id] none (some err))

/-- MockDatabase.ListDBs. -/
def listDBs (s : MockState) (env : MockEnv) : Except MockErr (List DBInstance) × MockState :=
  match checkError s "ListDBs" with
  | some err => (Except.error err, recordOperation s env "ListDBs" [] none (some err))
  | none =>
    let dbs := s.dbState.map (fun p => p.2)
    (Except.ok dbs, recordOperation s env "ListDBs" [] (some (GoVal.dbListV dbs)) none)

/-- MockDatabase.DeleteDB. -/
def deleteDB (s : MockState) (env : MockEnv) (id : String) : Except MockErr Unit × MockState :=
  match checkError s "DeleteDB" with
  | some err => (Except.error err,
      recordOperation s env "DeleteDB" [GoVal.strV id] none (some err))
  | none =>
    match lookupA s.dbState id with
    | none =>
      let err := MockErr.cloudE
        (NewResourceNotFoundError "mock" "database" "database instance" id env.now)
      (Except.error err, recordOperation s env "DeleteDB" [GoVal.strV id] none (some err))
    | some _ =>
      let s := { s with dbState := eraseA s.dbState id }
      (Except.ok (), recordOperation s env "DeleteDB" [GoVal.strV id] none none)

/-! A uniform view of the sixteen simulator entry points, for stating frame
properties once over all of them. -/

/-- One simulator service call with its arguments. -/
inductive MockCall where
  | createVMc (config : VMConfig)
  | getVMc (id : String)
  | listVMsC
  | deleteVMc (id : String)
  | startVMc (id : String)
  | stopVMc (id : String)
  | createBucketC (config : BucketConfig)
  | listBucketsC
  | deleteBucketC (name : String)
  | putObjectC (bucket key : String) (data : ReaderVal)
  | getObjectC (bucket key : String)
  | deleteObjectC (bucket key : String)
  | listObjectsC (bucket : String)
  | createDBc (config : DBConfig)
  | getDBc (id : String)
  | listDBsC
  | deleteDBc (id : String)
deriving DecidableEq, Repr

/-- Dispatch a simulator call, erasing the success payload to a GoVal. -/
def runCall (s : MockState) (env : MockEnv) : MockCall → Except MockErr (Option GoVal) × MockState
  | MockCall.createVMc c =>
    let r := createVM s env c
    (r.1.map (fun v => some (GoVal.vmV v)), r.2)
  | MockCall.getVMc id =>
    let r := getVM s env id
    (r.1.map (fun v => some (GoVal.vmV v)), r.2)
  | MockCall.listVMsC =>
    let r := listVMs s env
    (r.1.map (fun l => some (GoVal.vmListV l)), r.2)
  | MockCall.deleteVMc id =>
    let r := deleteVM s env id
    (r.1.map (fun _ => none), r.2)
  | MockCall.startVMc id =>
    let r := startVM s env id
    (r.1.map (fun _ => none), r.2)
  | MockCall.stopVMc id =>
    let r := stopVM s env id
    (r.1.map (fun _ => none), r.2)
  | MockCall.createBucketC c =>
    let r := createBucket s env c
    (r.1.map (fun _ => none), r.2)
  | MockCall.listBucketsC =>
    let r := listBuckets s env
    (r.1.map (fun l => some (GoVal.strListV l)), r.2)
  | MockCall.deleteBucketC n =>
    let r := deleteBucket s env n
    (r.1.map (fun _ => none), r.2)
  | MockCall.putObjectC b k d =>
    let r := putObject s env b k d
    (r.1.map (fun _ => none), r.2)
  | MockCall.getObjectC b k =>
    let r := getObject s env b k
    (r.1.map (fun data => some (GoVal.readerV { bytes := data, readFails := false })), r.2)
  | MockCall.deleteObjectC b k =>
    let r := deleteObject s env b k
    (r.1.map (fun _ => none), r.2)
  | MockCall.listObjectsC b =>
    let r := listObjects s env b
    (r.1.map (fun l => some (GoVal.objListV l)), r.2)
  | MockCall.createDBc c =>
    let r := createDB s env c
    (r.1.map (fun d => some (GoVal.dbV d)), r.2)
  | MockCall.getDBc id =>
    let r := getDB s env id
    (r.1.map (fun d => some (GoVal.dbV d)), r.2)
  | MockCall.listDBsC =>
    let r := listDBs s env
    (r.1.map (fun l => some (GoVal.dbListV l)), r.2)
  | MockCall.deleteDBc id =>
    let r := deleteDB s env id
    (r.1.map (fun _ => none), r.2)

/-- Whether an operation result is an error. -/
def isErrE {α : Type} : Except MockErr α → Bool
  | Except.error _ => true
  | Except.ok _ => false

/-- Everything of the simulator state except the three recorder fields
(operations, callCounts, lastCallArgs): the configuration and the three
resource stores. -/
def resourceConfigView (s : MockState) :
    String × List ServiceType × List (String × VM) × List (String × Bool) ×
    List (String × DBInstance) × List (String × List (String × List UInt8)) ×
    List (String × MockErr) × List (String × Nat) × List (String × VM) ×
    List (String × BucketState) × List (String × DBInstance) :=
  (s.region, s.supportedServices, s.vmResponses, s.bucketResponses, s.dbResponses,
   s.objectResponses, s.errors, s.delays, s.vmState, s.bucketState, s.dbState)

/-! Pointer view of the compute store, for the aliasing behaviour of
CreateVM/GetVM.  In providers/mock, `vmState` is a `map[string]*services.VM`:
CreateVM inserts a pointer to a freshly allocated record and returns that
pointer, GetVM returns the stored pointer itself, and StartVM/StopVM assign
through it.  Cells live in a Nat-addressed heap. -/

/-- The compute store with explicit pointers: the heap of allocated
services.VM records, and the id-to-pointer map vmState. -/
structure MockComputeHeap where
  cells : List (Nat × VM)
  vmState : List (String × Nat)
deriving DecidableEq, Repr

/-- An empty heap (fresh simulator). -/
def emptyComputeHeap : MockComputeHeap := { cells := [], vmState := [] }

/-- CreateVM, pointer view: allocate a cell for the new record, store the
pointer in vmState, and return the same pointer to the caller. -/
def heapCreateVM (h : MockComputeHeap) (vm : VM) : Nat × MockComputeHeap :=
  let p := h.cells.length
  (p, { cells := h.cells ++ [(p, vm)], vmState := insertA h.vmState vm.id p })

/-- GetVM, pointer view: `return vm, nil` where vm is the map value — the
stored pointer itself, not a copy of the record. -/
def heapGetVM (h : MockComputeHeap) (id : String) : Option Nat :=
  lookupA h.vmState id

/-- Read the record a pointer designates. -/
def heapDeref (h : MockComputeHeap) (p : Nat) : Option VM :=
  lookupA h.cells p

/-- A caller-side assignment `vm.State = st` performed through a pointer the
simulator handed out. -/
def heapWriteState (h : MockComputeHeap) (p : Nat) (st : String) : MockComputeHeap :=
  match lookupA h.cells p with
  | none => h
  | some vm => { h with cells := insertA h.cells p { vm with state := st } }

/-! Concrete fixtures used by counterexamples and witnesses. -/

/-- A call environment at UnixNano 0. -/
def envT0 : MockEnv := { now := 0, nowFormatted := "1970-01-01T00:00:00Z" }

/-- A call environment at UnixNano 1. -/
def envT1 : MockEnv := { now := 1, nowFormatted := "1970-01-01T00:00:00Z" }

/-- A compute creation request named web. -/
def vmCfgWeb : VMConfig := { name := "web", imageID := "ami-1", instanceType := "t2.micro" }

/-- A storage creation request named logs. -/
def bucketCfgLogs : BucketConfig := { name := "logs", region := "us-east-1", tags := [] }

/-- A fresh default simulator. -/
def mock0 : MockState := mockNew "us-east-1"

/-- The simulator after one CreateVM named web. -/
def c2afterFirst : MockState := (createVM mock0 envT0 vmCfgWeb).2

/-- A second CreateVM with the same configured name against that state. -/
def c2secondCreate : Except MockErr VM × MockState := createVM c2afterFirst envT1 vmCfgWeb

/-- A concrete running VM record. -/
def c3vm : VM :=
  { id := "i-1", name := "web", state := "running", publicIP := "203.0.113.1",
    privateIP := "10.0.1.1", launchTime := "1970-01-01T00:00:00Z" }

/-- A pointer-view store holding that one VM. -/
def c3heap1 : MockComputeHeap := (heapCreateVM emptyComputeHeap c3vm).2

/-- The pointer CreateVM handed back for it. -/
def c3ptr : Nat := (heapCreateVM emptyComputeHeap c3vm).1

/-- The store after the caller assigns state stopped through that pointer. -/
def c3heap2 : MockComputeHeap := heapWriteState c3heap1 c3ptr "stopped"

/-- A concrete CloudError cell content. -/
def c4err : CloudError :=
  NewCloudError ErrorCode.errProviderError "boom" "mock" "compute" "CreateVM" 0

/-- A heap whose every cell holds that error. -/
def c4heap : ErrHeap := fun _ => c4err

/-- The simulator after creating bucket logs. -/
def c9state0 : MockState := (createBucket mock0 envT0 bucketCfgLogs).2

/-- A two-byte object body. -/
def c9reader : ReaderVal := { bytes := [104, 105], readFails := false }

/-- The simulator after putting object k into bucket logs. -/
def c9state1 : MockState := (putObject c9state0 envT0 "logs" "k" c9reader).2

/-- The simulator after deleting object k again. -/
def c9state2 : MockState := (deleteObject c9state1 envT1 "logs" "k").2

/-- A provider declaring compute and database but not storage. -/
def c8provider : ProviderImpl String :=
  { name := "mock", region := "us-east-1",
    supportedServices := [ServiceType.serviceCompute, ServiceType.serviceDatabase],
    computeSvc := "compute-handle", storageSvc := "storage-handle",
    databaseSvc := "database-handle" }

/-- The client wrapping it. -/
def c8client : Client String := { provider := c8provider }

/-- A context that becomes done for every attempt after the k-th. -/
def ctxDoneAfter (k : Nat) : Nat → Bool := fun attempt => decide (k < attempt)

/-! Theorems.  First, library facts about the Go-map model. -/

/-- Reading a key just written returns the written value. -/
theorem lookupA_insertA_self {κ α : Type} [DecidableEq κ] (l : List (κ × α)) (k : κ) (v : α) :
    lookupA (insertA l k v) k = some v := by
  induction l with
  | nil => simp [insertA, lookupA]
  | cons hd tl ih =>
    obtain ⟨k', v'⟩ := hd
    by_cases h : k' = k
    · simp [insertA, h, lookupA]
    · simp [insertA, h, lookupA, ih]

/-- A key absent from the entry list reads as none. -/
theorem lookupA_eq_none_of_not_mem {κ α : Type} [DecidableEq κ] (l : List (κ × α)) (k : κ)
    (h : k ∉ l.map Prod.fst) : lookupA l k = none := by
  induction l with
  | nil => rfl
  | cons hd tl ih =>
    obtain ⟨k', v'⟩ := hd
    simp only [List.map_cons, List.mem_cons] at h
    push_neg at h
    simp [lookupA, fun hk : k' = k => h.1 hk.symm, ih h.2, Ne.symm h.1]

/-- Deleting a key from a duplicate-free entry list makes it unreadable. -/
theorem lookupA_eraseA_self {κ α : Type} [DecidableEq κ] (l : List (κ × α)) (k : κ)
    (hnd : (l.map Prod.fst).Nodup) : lookupA (eraseA l k) k = none := by
  induction l with
  | nil => rfl
  | cons hd tl ih =>
    obtain ⟨k', v'⟩ := hd
    simp only [List.map_cons, List.nodup_cons] at hnd
    by_cases h : k' = k
    · subst h
      simp only [eraseA, if_pos rfl]
      exact lookupA_eq_none_of_not_mem tl k' hnd.1
    · simp [eraseA, h, lookupA, ih hnd.2]

/-- One enrichment step never touches the retryable flag. -/
theorem applyEnrich_retryable (e : CloudError) (step : EnrichStep) :
    (applyEnrich e step).context.retryable = e.context.retryable := by
  cases step <;> rfl

/-- No chain of enrichment steps touches the retryable flag. -/
theorem applyEnrichChain_retryable (e : CloudError) (steps : List EnrichStep) :
    (applyEnrichChain e steps).context.retryable = e.context.retryable := by
  induction steps generalizing e with
  | nil => rfl
  | cons hd tl ih =>
    simp only [applyEnrichChain, List.foldl_cons] at ih ⊢
    rw [ih (applyEnrich e hd), applyEnrich_retryable]

/-- C5.  For every CloudError built by NewCloudError and then enriched by any
chain of WithSuggestions/WithCause/WithContext calls, the retryable flag equals
isRetryableError of its code — it is set once at construction and never
changed — and isRetryableError holds exactly for the RateLimited and
NetworkTimeout kinds. -/
theorem retryable_derived_from_code_invariant (code : ErrorCode)
    (message provider service operation : String) (now : Nat) (steps : List EnrichStep) :
    (applyEnrichChain (NewCloudError code message provider service operation now)
        steps).context.retryable = isRetryableError code ∧
    (isRetryableError code = true ↔
      (code = ErrorCode.errRateLimit ∨ code = ErrorCode.errNetworkTimeout)) := by
  constructor
  · rw [applyEnrichChain_retryable]
    rfl
  · cases code <;> simp [isRetryableError]

/-- C4 counterexample.  Calling WithSuggestions on a pointer into a concrete
heap changes the value the original pointer designates: the original error
value is NOT left unmodified. -/
theorem withSuggestions_mutates_receiver_cex :
    (withSuggestionsGo c4heap 0 ["check the provider status"]).1 0 ≠ c4heap 0 := by
  decide

/-- C4 (amended).  Each enrichment method mutates the receiver cell in place —
the heap afterwards holds the augmented value at the receiver address, all
other cells unchanged — and returns the receiver pointer itself rather than a
fresh augmented copy. -/
theorem enrichment_mutates_in_place_returns_receiver (h : ErrHeap) (p : Nat)
    (ss : List String) (c : String) (rid : String) (md : List (String × String)) :
    (withSuggestionsGo h p ss).2 = p ∧
    (withSuggestionsGo h p ss).1 p = withSuggestionsVal (h p) ss ∧
    (∀ q, q ≠ p → (withSuggestionsGo h p ss).1 q = h q) ∧
    (withCauseGo h p c).2 = p ∧
    (withCauseGo h p c).1 p = withCauseVal (h p) c ∧
    (∀ q, q ≠ p → (withCauseGo h p c).1 q = h q) ∧
    (withContextGo h p rid md).2 = p ∧
    (withContextGo h p rid md).1 p = withContextVal (h p) rid md ∧
    (∀ q, q ≠ p → (withContextGo h p rid md).1 q = h q) := by
  refine ⟨rfl, ?_, ?_, rfl, ?_, ?_, rfl, ?_, ?_⟩ <;>
    simp [withSuggestionsGo, withCauseGo, withContextGo, heapWrite]
  all_goals intro q hq; simp [hq]

/-- C4 witness: the amended statement applied to a concrete heap, pointer and
arguments, with the disequality hypothesis discharged at address 1. -/
theorem enrichment_mutates_in_place_returns_receiver_witness :
    (withSuggestionsGo c4heap 0 ["s1"]).2 = 0 ∧
    (withSuggestionsGo c4heap 0 ["s1"]).1 0 = withSuggestionsVal (c4heap 0) ["s1"] ∧
    (withSuggestionsGo c4heap 0 ["s1"]).1 1 = c4heap 1 := by
  obtain ⟨h1, h2, h3, _⟩ :=
    enrichment_mutates_in_place_returns_receiver c4heap 0 ["s1"] "cause" "rid" []
  exact ⟨h1, h2, h3 1 (by decide)⟩

/-- C8.  Every client accessor first checks membership of the service in the
provider's SupportedServices: absent membership yields the
ServiceNotSupportedError naming the provider and the missing service and no
delegation happens; present membership delegates to the provider handle.  The
verdict is a function of the provider's current capability slice only, so a
call made after the capability slice changed follows the new slice. -/
theorem client_guard_checks_membership_every_call {σ : Type} (c : Client σ)
    (svc : ServiceType) :
    (supportsService c svc = false →
      clientService c svc = Except.error { provider := c.provider.name, service := svc }) ∧
    (supportsService c svc = true →
      clientService c svc = Except.ok (providerService c.provider svc)) ∧
    (supportsService c svc = true ↔ svc ∈ c.provider.supportedServices) ∧
    (∀ l, supportsService { provider := withSupportedServices c.provider l } svc
        = l.any (fun s => s == svc)) := by
  refine ⟨?_, ?_, ?_, ?_⟩
  · intro hf
    cases svc <;>
      simp [clientService, clientCompute, clientStorage, clientDatabase, hf]
  · intro ht
    cases svc <;>
      simp [clientService, clientCompute, clientStorage, clientDatabase, providerService, ht]
  · constructor
    · intro ht
      rcases List.any_eq_true.mp ht with ⟨x, hx, hxe⟩
      rcases beq_iff_eq.mp hxe with rfl
      exact hx
    · intro hm
      exact List.any_eq_true.mpr ⟨svc, hm, beq_self_eq_true svc⟩
  · intro l
    rfl

/-- C8 witness: on a provider without storage, the storage accessor raises the
error naming mock and storage; the compute accessor delegates. -/
theorem client_guard_checks_membership_every_call_witness :
    clientService c8client ServiceType.serviceStorage =
      Except.error { provider := "mock", service := ServiceType.serviceStorage } ∧
    clientService c8client ServiceType.serviceCompute = Except.ok "compute-handle" :=
  ⟨(client_guard_checks_membership_every_call c8client ServiceType.serviceStorage).1
      (by decide),
   ((client_guard_checks_membership_every_call c8client ServiceType.serviceCompute).2.1
      (by decide))⟩

/-- C3 counterexample.  In a store holding one VM, mutating the record that
CreateVM/GetVM returned (assigning state stopped through the returned pointer)
changes what a subsequent GetVM on the same simulator returns: callers do not
receive value copies. -/
theorem getVM_alias_mutation_cex :
    ((heapGetVM c3heap2 "i-1").bind (heapDeref c3heap2)) ≠
      ((heapGetVM c3heap1 "i-1").bind (heapDeref c3heap1)) := by
  decide

/-- C3 (amended).  GetVM returns the pointer stored in the simulator map, so a
caller-side assignment through that pointer is visible to every subsequent
GetVM: afterwards the same pointer is returned and it designates the mutated
record. -/
theorem getVM_returns_aliased_pointer (h : MockComputeHeap) (id : String) (p : Nat)
    (vm : VM) (st : String) (hp : heapGetVM h id = some p) (hv : heapDeref h p = some vm) :
    heapGetVM (heapWriteState h p st) id = some p ∧
    heapDeref (heapWriteState h p st) p = some { vm with state := st } := by
  unfold heapDeref at hv
  unfold heapWriteState
  rw [hv]
  constructor
  · exact hp
  · unfold heapDeref
    exact lookupA_insertA_self h.cells p { vm with state := st }

/-- C3 witness: the amended statement at the concrete one-VM store. -/
theorem getVM_returns_aliased_pointer_witness :
    heapGetVM (heapWriteState c3heap1 0 "stopped") "i-1" = some 0 ∧
    heapDeref (heapWriteState c3heap1 0 "stopped") 0 = some { c3vm with state := "stopped" } :=
  getVM_returns_aliased_pointer c3heap1 "i-1" 0 c3vm "stopped" (by decide) (by decide)

/-- C2 counterexample.  MockCompute.CreateVM performs no duplicate-name check:
a second CreateVM with the same configured name while a VM of that name is in
the store succeeds (no ResourceConflict) and the store then holds two VMs. -/
theorem createVM_duplicate_name_cex :
    isErrE c2secondCreate.1 = false ∧ c2secondCreate.2.vmState.length = 2 := by
  decide

/-- C2 (amended).  For Bucket and DBInstance, absent an injected error and (for
the database) absent a configured canned response for the name, a second
create with an already-present name returns a ResourceConflict CloudError and
leaves the store unchanged; MockCompute.CreateVM has no such check (see the
counterexample: a duplicate-name create succeeds and adds a second VM). -/
theorem duplicate_create_conflict_bucket_db :
    (∀ (s : MockState) (env : MockEnv) (config : BucketConfig),
      checkError s "CreateBucket" = none →
      (∃ b, lookupA s.bucketState config.name = some b) →
      (∃ e, (createBucket s env config).1 = Except.error (MockErr.cloudE e) ∧
        e.code = ErrorCode.errResourceConflict) ∧
      (createBucket s env config).2.bucketState = s.bucketState) ∧
    (∀ (s : MockState) (env : MockEnv) (config : DBConfig),
      checkError s "CreateDB" = none →
      lookupA s.dbResponses config.name = none →
      s.dbState.any (fun p => p.2.name = config.name) = true →
      (∃ e, (createDB s env config).1 = Except.error (MockErr.cloudE e) ∧
        e.code = ErrorCode.errResourceConflict) ∧
      (createDB s env config).2.dbState = s.dbState) := by
  constructor
  · intro s env config hinj ⟨b, hb⟩
    unfold createBucket
    rw [hinj, hb]
    refine ⟨⟨_, rfl, rfl⟩, rfl⟩
  · intro s env config hinj hresp hdup
    unfold createDB
    rw [hinj, hresp, hdup]
    simp only [if_true]
    refine ⟨⟨_, rfl, rfl⟩, rfl⟩

/-- C2 witness: a concrete duplicate CreateBucket returns ResourceConflict and
leaves the bucket map unchanged. -/
theorem duplicate_create_conflict_bucket_db_witness :
    (∃ e, (createBucket c9state0 envT1 bucketCfgLogs).1 = Except.error (MockErr.cloudE e) ∧
      e.code = ErrorCode.errResourceConflict) ∧
    (createBucket c9state0 envT1 bucketCfgLogs).2.bucketState = c9state0.bucketState :=
  duplicate_create_conflict_bucket_db.1 c9state0 envT1 bucketCfgLogs (by decide)
    ⟨{ name := "logs", region := "us-east-1", objects := [], tags := [] }, by decide⟩

/-- C9.  Absent an injected error, DeleteBucket on an existing bucket fails
with ResourceConflict and leaves the bucket map unchanged while the bucket
still holds objects, and succeeds and removes the bucket once its object map
is empty.  The Nodup hypothesis is the Go map invariant (unique keys). -/
theorem deleteBucket_nonempty_conflict_empty_succeeds (s : MockState) (env : MockEnv)
    (name : String) (b : BucketState)
    (hinj : checkError s "DeleteBucket" = none)
    (hb : lookupA s.bucketState name = some b)
    (hnd : (s.bucketState.map Prod.fst).Nodup) :
    (b.objects ≠ [] →
      (∃ e, (deleteBucket s env name).1 = Except.error (MockErr.cloudE e) ∧
        e.code = ErrorCode.errResourceConflict) ∧
      (deleteBucket s env name).2.bucketState = s.bucketState) ∧
    (b.objects = [] →
      (deleteBucket s env name).1 = Except.ok () ∧
      lookupA (deleteBucket s env name).2.bucketState name = none) := by
  unfold deleteBucket
  simp only [hinj, hb]
  constructor
  · intro hne
    have hlen : 0 < b.objects.length := by
      cases hobj : b.objects with
      | nil => exact absurd hobj hne
      | cons x xs => simp [hobj]
    rw [if_pos hlen]
    exact ⟨⟨_, rfl, rfl⟩, rfl⟩
  · intro he
    have hlen : ¬ 0 < b.objects.length := by simp [he]
    rw [if_neg hlen]
    refine ⟨rfl, ?_⟩
    exact lookupA_eraseA_self s.bucketState name hnd

/-- C9 witness: with bucket logs holding object k, DeleteBucket yields
ResourceConflict and keeps the bucket; after DeleteObject removes k,
DeleteBucket succeeds and the bucket is gone. -/
theorem deleteBucket_nonempty_conflict_empty_succeeds_witness :
    ((∃ e, (deleteBucket c9state1 envT1 "logs").1 = Except.error (MockErr.cloudE e) ∧
        e.code = ErrorCode.errResourceConflict) ∧
      (deleteBucket c9state1 envT1 "logs").2.bucketState = c9state1.bucketState) ∧
    ((deleteBucket c9state2 envT1 "logs").1 = Except.ok () ∧
      lookupA (deleteBucket c9state2 envT1 "logs").2.bucketState "logs" = none) :=
  ⟨(deleteBucket_nonempty_conflict_empty_succeeds c9state1 envT1 "logs"
      { name := "logs", region := "us-east-1", objects := [("k", [104, 105])], tags := [] }
      (by decide) (by decide) (by decide)).1 (by decide),
   (deleteBucket_nonempty_conflict_empty_succeeds c9state2 envT1 "logs"
      { name := "logs", region := "us-east-1", objects := [], tags := [] }
      (by decide) (by decide) (by decide)).2 rfl⟩

/-- The recorder appends never touch configuration or resource stores. -/
theorem resourceConfigView_record (s : MockState) (env : MockEnv) (m : String)
    (a : List GoVal) (r : Option GoVal) (e : Option MockErr) :
    resourceConfigView (recordOperation s env m a r e) = resourceConfigView s := rfl

/-- Erasing the success payload preserves errorhood. -/
theorem isErrE_map {α β : Type} (r : Except MockErr α) (f : α → β) :
    isErrE (r.map f) = isErrE r := by
  cases r <;> rfl

/-- CreateVM frame: an error return leaves config and stores unchanged. -/
theorem createVM_err_frame (s : MockState) (env : MockEnv) (config : VMConfig)
    (h : isErrE (createVM s env config).1 = true) :
    resourceConfigView (createVM s env config).2 = resourceConfigView s := by
  unfold createVM at h ⊢
  repeat' split at h
  all_goals simp_all [isErrE, resourceConfigView, recordOperation]

/-- GetVM frame. -/
theorem getVM_err_frame (s : MockState) (env : MockEnv) (id : String)
    (h : isErrE (getVM s env id).1 = true) :
    resourceConfigView (getVM s env id).2 = resourceConfigView s := by
  unfold getVM at h ⊢
  repeat' split at h
  all_goals simp_all [isErrE, resourceConfigView, recordOperation]

/-- ListVMs frame. -/
theorem listVMs_err_frame (s : MockState) (env : MockEnv)
    (h : isErrE (listVMs s env).1 = true) :
    resourceConfigView (listVMs s env).2 = resourceConfigView s := by
  unfold listVMs at h ⊢
  repeat' split at h
  all_goals simp_all [isErrE, resourceConfigView, recordOperation]

/-- DeleteVM frame. -/
theorem deleteVM_err_frame (s : MockState) (env : MockEnv) (id : String)
    (h : isErrE (deleteVM s env id).1 = true) :
    resourceConfigView (deleteVM s env id).2 = resourceConfigView s := by
  unfold deleteVM at h ⊢
  repeat' split at h
  all_goals simp_all [isErrE, resourceConfigView, recordOperation]

/-- StartVM frame. -/
theorem startVM_err_frame (s : MockState) (env : MockEnv) (id : String)
    (h : isErrE (startVM s env id).1 = true) :
    resourceConfigView (startVM s env id).2 = resourceConfigView s := by
  unfold startVM at h ⊢
  repeat' split at h
  all_goals simp_all [isErrE, resourceConfigView, recordOperation]

/-- StopVM frame. -/
theorem stopVM_err_frame (s : MockState) (env : MockEnv) (id : String)
    (h : isErrE (stopVM s env id).1 = true) :
    resourceConfigView (stopVM s env id).2 = resourceConfigView s := by
  unfold stopVM at h ⊢
  repeat' split at h
  all_goals simp_all [isErrE, resourceConfigView, recordOperation]

/-- CreateBucket frame. -/
theorem createBucket_err_frame (s : MockState) (env : MockEnv) (config : BucketConfig)
    (h : isErrE (createBucket s env config).1 = true) :
    resourceConfigView (createBucket s env config).2 = resourceConfigView s := by
  unfold createBucket at h ⊢
  repeat' split at h
  all_goals simp_all [isErrE, resourceConfigView, recordOperation]

/-- ListBuckets frame. -/
theorem listBuckets_err_frame (s : MockState) (env : MockEnv)
    (h : isErrE (listBuckets s env).1 = true) :
    resourceConfigView (listBuckets s env).2 = resourceConfigView s := by
  unfold listBuckets at h ⊢
  repeat' split at h
  all_goals simp_all [isErrE, resourceConfigView, recordOperation]

/-- DeleteBucket frame. -/
theorem deleteBucket_err_frame (s : MockState) (env : MockEnv) (name : String)
    (h : isErrE (deleteBucket s env name).1 = true) :
    resourceConfigView (deleteBucket s env name).2 = resourceConfigView s := by
  unfold deleteBucket at h ⊢
  repeat' split at h
  all_goals simp_all [isErrE, resourceConfigView, recordOperation]

/-- PutObject frame. -/
theorem putObject_err_frame (s : MockState) (env : MockEnv) (bucket key : String)
    (data : ReaderVal) (h : isErrE (putObject s env bucket key data).1 = true) :
    resourceConfigView (putObject s env bucket key data).2 = resourceConfigView s := by
  unfold putObject at h ⊢
  repeat' split at h
  all_goals simp_all [isErrE, resourceConfigView, recordOperation]

/-- GetObject frame. -/
theorem getObject_err_frame (s : MockState) (env : MockEnv) (bucket key : String)
    (h : isErrE (getObject s env bucket key).1 = true) :
    resourceConfigView (getObject s env bucket key).2 = resourceConfigView s := by
  unfold getObject at h ⊢
  repeat' split at h
  all_goals simp_all [isErrE, resourceConfigView, recordOperation]

/-- DeleteObject frame. -/
theorem deleteObject_err_frame (s : MockState) (env : MockEnv) (bucket key : String)
    (h : isErrE (deleteObject s env bucket key).1 = true) :
    resourceConfigView (deleteObject s env bucket key).2 = resourceConfigView s := by
  unfold deleteObject at h ⊢
  repeat' split at h
  all_goals simp_all [isErrE, resourceConfigView, recordOperation]

/-- ListObjects frame. -/
theorem listObjects_err_frame (s : MockState) (env : MockEnv) (bucket : String)
    (h : isErrE (listObjects s env bucket).1 = true) :
    resourceConfigView (listObjects s env bucket).2 = resourceConfigView s := by
  unfold listObjects at h ⊢
  repeat' split at h
  all_goals simp_all [isErrE, resourceConfigView, recordOperation]

/-- CreateDB frame. -/
theorem createDB_err_frame (s : MockState) (env : MockEnv) (config : DBConfig)
    (h : isErrE (createDB s env config).1 = true) :
    resourceConfigView (createDB s env config).2 = resourceConfigView s := by
  unfold createDB at h ⊢
  repeat' split at h
  all_goals simp_all [isErrE, resourceConfigView, recordOperation]

/-- GetDB frame. -/
theorem getDB_err_frame (s : MockState) (env : MockEnv) (id : String)
    (h : isErrE (getDB s env id).1 = true) :
    resourceConfigView (getDB s env id).2 = resourceConfigView s := by
  unfold getDB at h ⊢
  repeat' split at h
  all_goals simp_all [isErrE, resourceConfigView, recordOperation]

/-- ListDBs frame. -/
theorem listDBs_err_frame (s : MockState) (env : MockEnv)
    (h : isErrE (listDBs s env).1 = true) :
    resourceConfigView (listDBs s env).2 = resourceConfigView s := by
  unfold listDBs at h ⊢
  repeat' split at h
  all_goals simp_all [isErrE, resourceConfigView, recordOperation]

/-- DeleteDB frame. -/
theorem deleteDB_err_frame (s : MockState) (env : MockEnv) (id : String)
    (h : isErrE (deleteDB s env id).1 = true) :
    resourceConfigView (deleteDB s env id).2 = resourceConfigView s := by
  unfold deleteDB at h ⊢
  repeat' split at h
  all_goals simp_all [isErrE, resourceConfigView, recordOperation]

/-- C10.  Every simulator entry point is atomic on the resource state: when a
call returns an error of any kind — injected or lifecycle — the configuration
and the vmState, bucketState and dbState stores are exactly as before the
call; only the recorder fields (operation log, call counters, last-call
arguments) change. -/
theorem mock_error_returns_leave_resource_state_unchanged (s : MockState) (env : MockEnv)
    (call : MockCall) (h : isErrE (runCall s env call).1 = true) :
    resourceConfigView (runCall s env call).2 = resourceConfigView s := by
  cases call <;> simp only [runCall, isErrE_map] at h ⊢ <;>
  first
    | exact createVM_err_frame _ _ _ h
    | exact getVM_err_frame _ _ _ h
    | exact listVMs_err_frame _ _ h
    | exact deleteVM_err_frame _ _ _ h
    | exact startVM_err_frame _ _ _ h
    | exact stopVM_err_frame _ _ _ h
    | exact createBucket_err_frame _ _ _ h
    | exact listBuckets_err_frame _ _ h
    | exact deleteBucket_err_frame _ _ _ h
    | exact putObject_err_frame _ _ _ _ _ h
    | exact getObject_err_frame _ _ _ _ h
    | exact deleteObject_err_frame _ _ _ _ h
    | exact listObjects_err_frame _ _ _ h
    | exact createDB_err_frame _ _ _ h
    | exact getDB_err_frame _ _ _ h
    | exact listDBs_err_frame _ _ h
    | exact deleteDB_err_frame _ _ _ h

/-- C10 witness: GetVM on a missing id errors and the view is unchanged. -/
theorem mock_error_returns_leave_resource_state_unchanged_witness :
    isErrE (runCall mock0 envT0 (MockCall.getVMc "nope")).1 = true ∧
    resourceConfigView (runCall mock0 envT0 (MockCall.getVMc "nope")).2 =
      resourceConfigView mock0 :=
  ⟨by decide,
   mock_error_returns_leave_resource_state_unchanged mock0 envT0 (MockCall.getVMc "nope")
     (by decide)⟩

/-- One unfolding of the loop at positive fuel (controls rewriting depth). -/
theorem retryLoop_succ {ε : Type} (config : RetryConfig) (retryable : ε → Bool)
    (ctxDone : Nat → Bool) (operation : Nat → Option ε) (fuel attempt delay : Nat)
    (lastErr : Option ε) :
    retryLoop config retryable ctxDone operation (fuel + 1) attempt delay lastErr =
      if 1 < attempt ∧ ctxDone attempt then
        { outcome := RetryOutcome.ctxCancelled, sleeps := [], calls := 0 }
      else
        let slept : List Nat := if 1 < attempt then [delay] else []
        match operation attempt with
        | none => { outcome := RetryOutcome.success, sleeps := slept, calls := 1 }
        | some e =>
          if retryable e = false then
            { outcome := RetryOutcome.failed e, sleeps := slept, calls := 1 }
          else
            let delay' := if attempt < config.maxAttempts then nextDelay config delay
              else delay
            let rest := retryLoop config retryable ctxDone operation fuel (attempt + 1)
              delay' (some e)
            { outcome := rest.outcome
              sleeps := slept ++ rest.sleeps
              calls := rest.calls + 1 } := by
  simp only [retryLoop]

/-- When the context is never done and every invocation fails retryably, fuel
m+1 starting at any attempt yields the (attempt+m)-th error after exactly m+1
invocations of the operation. -/
theorem retryLoop_allFail {ε : Type} (config : RetryConfig) (retryable : ε → Bool)
    (ctxDone : Nat → Bool) (operation : Nat → Option ε) (err : Nat → ε)
    (hctx : ∀ j, ctxDone j = false)
    (hop : ∀ j, operation j = some (err j))
    (hre : ∀ j, retryable (err j) = true) :
    ∀ (m attempt delay : Nat) (lastErr : Option ε),
      (retryLoop config retryable ctxDone operation (m + 1) attempt delay lastErr).outcome
          = RetryOutcome.failed (err (attempt + m)) ∧
      (retryLoop config retryable ctxDone operation (m + 1) attempt delay lastErr).calls
          = m + 1 := by
  intro m
  induction m with
  | zero =>
    intro attempt delay lastErr
    simp [retryLoop, hctx, hop, hre]
  | succ m ih =>
    intro attempt delay lastErr
    have h := ih (attempt + 1)
      (if attempt < config.maxAttempts then nextDelay config delay else delay)
      (some (err attempt))
    have harr : attempt + 1 + m = attempt + (m + 1) := by omega
    rw [harr] at h
    rw [retryLoop_succ]
    simp [hctx, hop, hre, h.1, h.2]

/-- C6.  For every policy with at least one attempt, a never-done context, and
an operation failing retryably on every invocation, the driver invokes the
operation exactly maxAttempts times and returns the error of the final
attempt. -/
theorem retry_exhausts_maxAttempts_returns_last_error {ε : Type} (config : RetryConfig)
    (retryable : ε → Bool) (ctxDone : Nat → Bool) (operation : Nat → Option ε)
    (err : Nat → ε)
    (hn : 1 ≤ config.maxAttempts)
    (hctx : ∀ j, ctxDone j = false)
    (hop : ∀ j, operation j = some (err j))
    (hre : ∀ j, retryable (err j) = true) :
    (retryWithBackoff config retryable ctxDone operation).outcome
        = RetryOutcome.failed (err config.maxAttempts) ∧
    (retryWithBackoff config retryable ctxDone operation).calls = config.maxAttempts := by
  obtain ⟨m, hm⟩ : ∃ m, config.maxAttempts = m + 1 :=
    ⟨config.maxAttempts - 1, by omega⟩
  have h := retryLoop_allFail config retryable ctxDone operation err hctx hop hre m 1
    config.initialDelay none
  have harr : 1 + m = m + 1 := by omega
  rw [harr] at h
  unfold retryWithBackoff
  rw [hm]
  exact h

/-- C6 witness: the default policy against an always-failing retryable
operation performs 3 attempts and surfaces the third error. -/
theorem retry_exhausts_maxAttempts_returns_last_error_witness :
    (retryWithBackoff DefaultRetryConfig retryAll ctxNever opAlwaysFail).outcome
        = RetryOutcome.failed 3 ∧
    (retryWithBackoff DefaultRetryConfig retryAll ctxNever opAlwaysFail).calls = 3 :=
  retry_exhausts_maxAttempts_returns_last_error DefaultRetryConfig retryAll ctxNever
    opAlwaysFail (fun j => j) (by decide) (fun _ => rfl) (fun _ => rfl) (fun _ => rfl)

/-- Once the loop reaches an attempt for which the context is done — after c
further attempts that fail retryably with the context still live — it returns
ctx.Err with no further invocation and no further completed sleep. -/
theorem retryLoop_cancelTail {ε : Type} (config : RetryConfig) (retryable : ε → Bool)
    (ctxDone : Nat → Bool) (operation : Nat → Option ε) (err : Nat → ε) (k : Nat)
    (hop : ∀ j, 1 ≤ j → j ≤ k → operation j = some (err j))
    (hre : ∀ j, 1 ≤ j → j ≤ k → retryable (err j) = true)
    (hctx : ∀ j, 2 ≤ j → j ≤ k → ctxDone j = false)
    (hdone : ctxDone (k + 1) = true) :
    ∀ (c fuel attempt delay : Nat) (lastErr : Option ε),
      2 ≤ attempt → attempt + c = k + 1 → c + 1 ≤ fuel →
      (retryLoop config retryable ctxDone operation fuel attempt delay lastErr).outcome
          = RetryOutcome.ctxCancelled ∧
      (retryLoop config retryable ctxDone operation fuel attempt delay lastErr).calls = c ∧
      (retryLoop config retryable ctxDone operation fuel attempt delay
          lastErr).sleeps.length = c := by
  intro c
  induction c with
  | zero =>
    intro fuel attempt delay lastErr ha hsum hfuel
    obtain ⟨f, rfl⟩ : ∃ f, fuel = f + 1 := ⟨fuel - 1, by omega⟩
    have hatt : attempt = k + 1 := by omega
    subst hatt
    have h1 : 1 < k + 1 := by omega
    simp [retryLoop, h1, hdone]
  | succ c ih =>
    intro fuel attempt delay lastErr ha hsum hfuel
    obtain ⟨f, rfl⟩ : ∃ f, fuel = f + 1 := ⟨fuel - 1, by omega⟩
    have hle : attempt ≤ k := by omega
    have ha1 : 1 < attempt := by omega
    have hcf : ctxDone attempt = false := hctx attempt ha hle
    have hopa : operation attempt = some (err attempt) := hop attempt (by omega) hle
    have hrea : retryable (err attempt) = true := hre attempt (by omega) hle
    have hrest := ih f (attempt + 1)
      (if attempt < config.maxAttempts then nextDelay config delay else delay)
      (some (err attempt)) (by omega) (by omega) (by omega)
    simp [retryLoop, hcf, hopa, hrea, ha1, hrest.1, hrest.2.1, hrest.2.2]

/-- C7.  If the context becomes done after attempt k completes and before
attempt k+1 begins (live before that, with attempts 1..k failing retryably and
k below maxAttempts), the driver performs no attempt k+1, returns the
cancellation outcome, and completes only the k-1 earlier backoff sleeps. -/
theorem ctx_cancel_between_attempts_stops_retry {ε : Type} (config : RetryConfig)
    (retryable : ε → Bool) (ctxDone : Nat → Bool) (operation : Nat → Option ε)
    (err : Nat → ε) (k : Nat)
    (hk1 : 1 ≤ k) (hkmax : k < config.maxAttempts)
    (hop : ∀ j, 1 ≤ j → j ≤ k → operation j = some (err j))
    (hre : ∀ j, 1 ≤ j → j ≤ k → retryable (err j) = true)
    (hctx : ∀ j, 2 ≤ j → j ≤ k → ctxDone j = false)
    (hdone : ctxDone (k + 1) = true) :
    (retryWithBackoff config retryable ctxDone operation).outcome
        = RetryOutcome.ctxCancelled ∧
    (retryWithBackoff config retryable ctxDone operation).calls = k ∧
    (retryWithBackoff config retryable ctxDone operation).sleeps.length = k - 1 := by
  obtain ⟨f, hf⟩ : ∃ f, config.maxAttempts = f + 1 := ⟨config.maxAttempts - 1, by omega⟩
  have hop1 : operation 1 = some (err 1) := hop 1 (by omega) hk1
  have hre1 : retryable (err 1) = true := hre 1 (by omega) hk1
  have h1max : 1 < config.maxAttempts := by omega
  have hrest := retryLoop_cancelTail config retryable ctxDone operation err k hop hre hctx
    hdone (k - 1) f 2 (nextDelay config config.initialDelay) (some (err 1))
    (by omega) (by omega) (by omega)
  unfold retryWithBackoff
  rw [hf]
  simp [retryLoop, hop1, hre1, h1max, hrest.1, hrest.2.1, hrest.2.2]
  omega

/-- C7 witness: with the default 3-attempt policy and a context cancelled
between attempts 2 and 3, the run is cancelled after exactly 2 invocations and
1 completed sleep. -/
theorem ctx_cancel_between_attempts_stops_retry_witness :
    (retryWithBackoff DefaultRetryConfig retryAll (ctxDoneAfter 2) opAlwaysFail).outcome
        = RetryOutcome.ctxCancelled ∧
    (retryWithBackoff DefaultRetryConfig retryAll (ctxDoneAfter 2) opAlwaysFail).calls = 2 ∧
    (retryWithBackoff DefaultRetryConfig retryAll (ctxDoneAfter 2)
        opAlwaysFail).sleeps.length = 2 - 1 :=
  ctx_cancel_between_attempts_stops_retry DefaultRetryConfig retryAll (ctxDoneAfter 2)
    opAlwaysFail (fun j => j) 2 (by decide) (by decide)
    (fun _ _ _ => rfl) (fun _ _ _ => rfl)
    (fun j h2 hk => by
      have : j = 2 := by omega
      subst this
      decide)
    (by decide)

/-- The capped doubling step maps each capped geometric value to the next. -/
theorem nextDelay_c1 (n j : Nat) : nextDelay (c1config n) (c1delay j) = c1delay (j + 1) := by
  have hp : (100000000 : Nat) * 2 ^ (j + 1) = 100000000 * 2 ^ j * 2 := by ring
  unfold nextDelay c1config c1delay
  rw [hp]
  generalize (100000000 : Nat) * 2 ^ j = a
  simp only [Nat.div_one]
  rcases Nat.le_total a 5000000000 with h | h
  · rw [Nat.min_eq_left h]
    rcases Nat.lt_or_ge 5000000000 (a * 2) with h2 | h2
    · rw [if_pos h2, Nat.min_eq_right (by omega)]
    · rw [if_neg (by omega), Nat.min_eq_left (by omega)]
  · rw [Nat.min_eq_right h, if_pos (by omega), Nat.min_eq_right (by omega)]

/-- In the always-failing run under the C1 policy, the loop entered at attempt
a ≥ 2 with the invariant delay c1delay (a-1) sleeps exactly the capped
geometric values c1delay (a-1), c1delay a, ... until the fuel runs out. -/
theorem retryLoop_c1_sleeps {ε : Type} (n : Nat) (retryable : ε → Bool)
    (ctxDone : Nat → Bool) (operation : Nat → Option ε) (err : Nat → ε)
    (hctx : ∀ j, ctxDone j = false)
    (hop : ∀ j, operation j = some (err j))
    (hre : ∀ j, retryable (err j) = true) :
    ∀ (m attempt : Nat) (lastErr : Option ε),
      2 ≤ attempt → m + attempt = n + 1 →
      (retryLoop (c1config n) retryable ctxDone operation m attempt
          (c1delay (attempt - 1)) lastErr).sleeps
        = (List.range m).map (fun i => c1delay (attempt - 1 + i)) := by
  intro m
  induction m with
  | zero => intro attempt lastErr ha hm; simp [retryLoop]
  | succ m ih =>
    intro attempt lastErr ha hm
    have ha1 : 1 < attempt := by omega
    rcases Nat.eq_zero_or_pos m with hm0 | hmpos
    · subst hm0
      simp [retryLoop, hctx, hop, hre, ha1, List.range_succ]
    · have hlt : attempt < n := by omega
      have harr : attempt - 1 + 1 = attempt := by omega
      have hnext : nextDelay (c1config n) (c1delay (attempt - 1)) = c1delay attempt := by
        rw [nextDelay_c1 n (attempt - 1), harr]
      have hmax : attempt < (c1config n).maxAttempts := hlt
      have ih2 : (retryLoop (c1config n) retryable ctxDone operation m (attempt + 1)
          (c1delay attempt) (some (err attempt))).sleeps
          = (List.range m).map (fun i => c1delay (attempt + i)) := by
        have h := ih (attempt + 1) (some (err attempt)) (by omega) (by omega)
        simpa using h
      have hfun : ∀ i, attempt - 1 + (i + 1) = attempt + i := fun i => by omega
      simp [retryLoop, hctx, hop, hre, ha1, hmax, hnext, ih2, List.range_succ_eq_map,
        List.map_map, Function.comp, hfun]

/-- C1 counterexample.  Under the policy {initial 100ms, cap 5s, factor 2.0}
with 8 attempts against an always-failing retryable operation, the completed
sleeps are 200ms, 400ms, 800ms, 1.6s, 3.2s, 5s, 5s — in particular the first
sleep is not the claimed 100ms = initialDelay. -/
theorem retry_delay_sequence_cex :
    (retryWithBackoff (c1config 8) retryAll ctxNever opAlwaysFail).sleeps
        = [200000000, 400000000, 800000000, 1600000000, 3200000000,
           5000000000, 5000000000] ∧
    (retryWithBackoff (c1config 8) retryAll ctxNever opAlwaysFail).sleeps.get? 0 ≠
      some 100000000 := by
  decide

/-- C1 (amended).  For the policy {initial 100ms, cap 5s, factor 2.0} with n
attempts against an always-failing retryable operation under a live context,
the k-th completed sleep equals min(initialDelay * factor^k, maxDelay) — the
geometric sequence starts one doubling above initialDelay because the code
multiplies the delay before the first sleep. -/
theorem retry_delay_sequence_capped_shifted {ε : Type} (n k : Nat) (retryable : ε → Bool)
    (ctxDone : Nat → Bool) (operation : Nat → Option ε) (err : Nat → ε)
    (hctx : ∀ j, ctxDone j = false)
    (hop : ∀ j, operation j = some (err j))
    (hre : ∀ j, retryable (err j) = true)
    (hk1 : 1 ≤ k) (hk : k ≤ n - 1) :
    (retryWithBackoff (c1config n) retryable ctxDone operation).sleeps.get? (k - 1)
      = some (c1delay k) := by
  obtain ⟨f, hf⟩ : ∃ f, n = f + 1 := ⟨n - 1, by omega⟩
  subst hf
  have hkf : k ≤ f := by omega
  have hrest := retryLoop_c1_sleeps (f + 1) retryable ctxDone operation err hctx hop hre
    f 2 (some (err 1)) (by omega) (by omega)
  norm_num at hrest
  have h1f : 1 < (c1config (f + 1)).maxAttempts := by
    show 1 < f + 1
    omega
  have h100 : (100000000 : Nat) = c1delay 0 := by norm_num [c1delay]
  unfold retryWithBackoff
  show (retryLoop (c1config (f + 1)) retryable ctxDone operation (f + 1) 1 100000000
      none).sleeps.get? (k - 1) = some (c1delay k)
  rw [h100]
  simp only [retryLoop, hctx 1, hop 1, hre 1, h1f, nextDelay_c1]
  norm_num [hrest, List.get?_map, List.get?_range, show k - 1 < f by omega]
  congr 1
  omega

/-- C1 witness: under the 8-attempt policy the seventh completed sleep has
reached the 5s cap. -/
theorem retry_delay_sequence_capped_shifted_witness :
    (retryWithBackoff (c1config 8) retryAll ctxNever opAlwaysFail).sleeps.get? (7 - 1)
      = some (c1delay 7) :=
  retry_delay_sequence_capped_shifted 8 7 retryAll ctxNever opAlwaysFail (fun j => j)
    (fun _ => rfl) (fun _ => rfl) (fun _ => rfl) (by decide) (by decide)

end Cloudsdk
